import Mathlib

/-!
Verification of the invoicing core of the mkinvoicing repository.

Shallow embedding of:
- the invoice totals calculator of lib/invoices-service.ts
  (computeSubtotal, computeTaxTotal, computeTotals, computeItemsTotal);
- the PDF layout logic shared by the download/print routines
  (three-column width negotiation, totals-card height);
- the download render pipeline and its error behavior;
- the payment-update handler and the mark-as-paid action.

JavaScript numbers are modelled as exact rationals; the string fallback
chains (a || b, where the empty string is falsy) are modelled over
String with the empty string as the absent value.
-/

namespace Invoicing

/-- JavaScript a || b on strings: the empty string is falsy. -/
def orS (a b : String) : String := if a = "" then b else a

/-- One invoice line item, as in InvoiceItemRow of lib/invoices-service.ts. -/
structure InvoiceItemRow where
  item : String
  description : Option String
  quantity : Rat
  unit_price : Rat
  tax_percent : Rat
deriving DecidableEq, Repr

/-- discount_type of an invoice: value (absolute) or percent of subtotal. -/
inductive DiscountType where
  | value
  | percent
deriving DecidableEq, Repr

/-- Invoice status: only unpaid and paid exist. -/
inductive InvoiceStatus where
  | unpaid
  | paid
deriving DecidableEq, Repr

/-- A party snapshot (from_snapshot / bill_to_snapshot); untyped JSON in the
source, with absent fields read as falsy. Absent string fields are the
empty string. -/
structure Snapshot where
  type : String
  company_name : String
  full_name : String
  email : String
  phone : String
  street : String
  city : String
  postal : String
  country : String
  address_line_1 : String
  address_line_2 : String
deriving DecidableEq, Repr

/-- The snapshot value used when from_snapshot / bill_to_snapshot is null
(inv.from_snapshot ?? \x7b\x7d): every field reads as falsy. -/
def emptySnapshot : Snapshot :=
  ⟨"", "", "", "", "", "", "", "", "", "", ""⟩

/-- The sender profile (lib/settings-service.ts Profile), restricted to the
fields the renderer reads; duck-typed reads of absent fields give "". -/
structure Profile where
  accountType : String
  companyName : String
  fullName : String
  email : String
  phone : String
  logoUrl : String
  address_line_1 : String
  address_line_2 : String
  bank_name : String
  bank_acc_num : String
  website : String
deriving DecidableEq, Repr

/-- Branding record returned by fetchBranding; absent fields read as "". -/
structure Branding where
  logoUrl : String
  brandColor : String
  companyName : String
  address1 : String
  address2 : String
  website : String
  phone : String
  email : String
deriving DecidableEq, Repr

/-- branding ?? \x7b\x7d : the all-absent branding record. -/
def emptyBranding : Branding := ⟨"", "", "", "", "", "", "", ""⟩

/-- InvoiceDetail of lib/invoices-service.ts, extended with the payment
fields read by the detail-view actions (payment_method, amount_paid,
amount_due). -/
structure InvoiceDetail where
  id : String
  number : String
  issue_date : String
  due_date : String
  status : InvoiceStatus
  currency : String
  from_snapshot : Option Snapshot
  bill_to_snapshot : Option Snapshot
  discount_type : DiscountType
  discount_amount : Rat
  notes : Option String
  terms : Option String
  items : List InvoiceItemRow
  payment_method : Option String
  amount_paid : Rat
  amount_due : Rat
deriving DecidableEq, Repr

/-- The four derived figures returned by computeTotals. -/
structure Totals where
  subtotal : Rat
  taxTotal : Rat
  discount : Rat
  total : Rat
deriving DecidableEq, Repr

/-- computeSubtotal of lib/invoices-service.ts:
items.reduce((s, it) => s + quantity * unit_price, 0). -/
def computeSubtotal (items : List InvoiceItemRow) : Rat :=
  items.foldl (fun s it => s + it.quantity * it.unit_price) 0

/-- computeTaxTotal of lib/invoices-service.ts:
items.reduce((s, it) => s + (quantity * unit_price) * (tax_percent / 100), 0). -/
def computeTaxTotal (items : List InvoiceItemRow) : Rat :=
  items.foldl
    (fun s it => s + it.quantity * it.unit_price * (it.tax_percent / 100)) 0

/-- computeTotals of lib/invoices-service.ts. The source reads
Number(inv.discount_amount || 0); on exact rationals x || 0 is x. -/
def computeTotals (inv : InvoiceDetail) : Totals :=
  let subtotal := computeSubtotal inv.items
  let taxTotal := computeTaxTotal inv.items
  let discount :=
    match inv.discount_type with
    | .percent => subtotal * inv.discount_amount / 100
    | .value => inv.discount_amount
  let total := subtotal + taxTotal - discount
  ⟨subtotal, taxTotal, discount, total⟩

/-- computeItemsTotal of lib/invoices-service.ts (used by listInvoices):
items.reduce((sum, it) => sum + line + tax, 0). -/
def computeItemsTotal (items : List InvoiceItemRow) : Rat :=
  items.foldl
    (fun sum it =>
      sum + it.quantity * it.unit_price
        + it.quantity * it.unit_price * (it.tax_percent / 100)) 0

/-! ### Three-column width negotiation

The From / Bill To / Invoice Details block of the PDF routines
(identical in the download and print code paths): margin M = 40,
gutter G = 24, desired widths fromW = 180, detailsW = 200,
middle minimum MID_MIN = 160, details floor 160, from floor 140,
absolute middle minimum 120. -/

/-- Resolved widths of the three metadata columns. -/
structure Widths where
  fromW : Rat
  detailsW : Rat
  midW : Rat
deriving DecidableEq, Repr

/-- The three-step greedy width negotiation of handleDownloadPDF /
handlePrintPDF, on the available width (page width minus the two outer
margins). -/
def negotiateWidths (available : Rat) : Widths :=
  let G : Rat := 24
  let fromW : Rat := 180
  let detailsW : Rat := 200
  let midW := available - fromW - detailsW - 2 * G
  if midW < 160 then
    let deficit := 160 - midW
    let detailsFloor : Rat := 160
    let canTakeFromDetails := max 0 (detailsW - detailsFloor)
    let takeFromDetails := min deficit canTakeFromDetails
    let detailsW := detailsW - takeFromDetails
    let midW := available - fromW - detailsW - 2 * G
    if midW < 160 then
      let remaining := 160 - midW
      let fromFloor : Rat := 140
      let canTakeFromFrom := max 0 (fromW - fromFloor)
      let takeFromFrom := min remaining canTakeFromFrom
      let fromW := fromW - takeFromFrom
      let midW := available - fromW - detailsW - 2 * G
      if midW < 160 then ⟨fromW, detailsW, max 120 midW⟩
      else ⟨fromW, detailsW, midW⟩
    else ⟨fromW, detailsW, midW⟩
  else ⟨fromW, detailsW, midW⟩

/-- The condition under which the negotiation runs all three shrink
steps: the first branch is taken, Invoice Details is shrunk all the
way to its floor 160, From all the way to its floor 140, and the final
clamp branch on the middle column is entered. This is exactly
available < 508 (see negotiateWidths_forced below). -/
def forcesAllThreeSteps (available : Rat) : Prop :=
  available < 508

instance (a : Rat) : Decidable (forcesAllThreeSteps a) := by
  unfold forcesAllThreeSteps; infer_instance

/-! ### Totals-card height

The richer detail-view routine (download and print alike) sizes the
totals card from the discount line and the conditional payment lines. -/

/-- hasPayment of the detail-view PDF routines:
inv.amount_paid > 0 || inv.amount_due > 0. -/
def hasPayment (inv : InvoiceDetail) : Prop :=
  0 < inv.amount_paid ∨ 0 < inv.amount_due

instance (inv : InvoiceDetail) : Decidable (hasPayment inv) := by
  unfold hasPayment; infer_instance

/-- Whether the Amount Paid line is drawn in the totals card
(if (inv.amount_paid > 0) ...). -/
def paidLineDrawn (inv : InvoiceDetail) : Bool :=
  decide (0 < inv.amount_paid)

/-- Whether the Amount Due line is drawn in the totals card
(if (inv.amount_due > 0) ...). -/
def dueLineDrawn (inv : InvoiceDetail) : Bool :=
  decide (0 < inv.amount_due)

/-- cardH of the detail-view PDF routines:
110 + (discount > 0 ? 14 : 0), plus, when any payment amount is
positive, 14 per positive payment amount and 4 extra spacing. -/
def cardHeight (inv : InvoiceDetail) : Rat :=
  let totals := computeTotals inv
  let base : Rat := 110 + (if 0 < totals.discount then 14 else 0)
  if hasPayment inv then
    base + (if 0 < inv.amount_paid then 14 else 0)
      + (if 0 < inv.amount_due then 14 else 0) + 4
  else base

/-- cardH of the older download-only routine (no payment lines):
110 + (discount > 0 ? 14 : 0). -/
def cardHeightBasic (inv : InvoiceDetail) : Rat :=
  110 + (if 0 < (computeTotals inv).discount then 14 else 0)

/-! ### Download render pipeline (handleDownloadPDF)

The pipeline is modelled on its already-fetched inputs: the invoice
fetch result (getInvoice returns null on any error), the profile, the
branding fetch result (undefined on any error) and the logo fetch
result (imageUrlToDataURL returns undefined on fetch or decode
failure). The document is the structured content the routine draws. -/

/-- Result of imageUrlToDataURL on success. -/
structure LogoImg where
  dataUrl : String
  fmt : String
deriving DecidableEq, Repr

/-- The renderer fails only when no invoice record resolves. -/
inductive RenderError where
  | notFound
deriving DecidableEq, Repr

/-- One body row of the line-item table. -/
structure ItemRow where
  item : String
  description : String
  quantity : Rat
  unit_price : Rat
  tax_percent : Rat
  lineTotal : Rat
deriving DecidableEq, Repr

/-- The structured content of the generated PDF. -/
structure PdfDoc where
  brandColor : String
  logoDrawn : Bool
  headerName : String
  headerEmail : String
  invoiceNumber : String
  widths : Widths
  fromLines : List String
  billLines : List String
  issueDate : String
  dueDate : String
  statusShown : InvoiceStatus
  itemRows : List ItemRow
  totals : Totals
  cardH : Rat
  notesSection : Option String
  termsSection : Option String
  filename : String
deriving DecidableEq, Repr

/-- Profile reads of the form (prof as any)?.field: null profile gives
a falsy (empty) value. -/
def profS (prof : Option Profile) (f : Profile → String) : String :=
  match prof with
  | some p => f p
  | none => ""

/-- buildFromLines of the download routine: merge branding, the sender
snapshot and the profile with the source fallback order, then keep the
non-empty lines (the name line is unconditional). -/
def buildFromLines (inv : InvoiceDetail) (prof : Option Profile)
    (branding : Branding) : List String :=
  let fromSnap := inv.from_snapshot.getD emptySnapshot
  let acctType := orS (profS prof Profile.accountType) "individual"
  let senderName :=
    orS branding.companyName
      (orS (if fromSnap.type = "company" then fromSnap.company_name
            else fromSnap.full_name)
        (orS (if acctType = "company" then profS prof Profile.companyName
              else profS prof Profile.fullName)
          "Your Company"))
  let senderEmail :=
    orS fromSnap.email (orS (profS prof Profile.email) branding.email)
  let addr1 :=
    orS branding.address1
      (orS fromSnap.address_line_1 (profS prof Profile.address_line_1))
  let addr2 :=
    orS branding.address2
      (orS fromSnap.address_line_2 (profS prof Profile.address_line_2))
  let phone :=
    orS branding.phone (orS fromSnap.phone (profS prof Profile.phone))
  let bankName := profS prof Profile.bank_name
  let bankAcc := profS prof Profile.bank_acc_num
  let website := orS branding.website (profS prof Profile.website)
  let lines :=
    [senderName]
      ++ (if senderEmail = "" then [] else [senderEmail])
      ++ (if addr1 = "" then [] else [addr1])
      ++ (if addr2 = "" then [] else [addr2])
      ++ (if phone = "" then [] else [phone])
      ++ (if bankName = "" then [] else ["Bank: " ++ bankName])
      ++ (if bankAcc = "" then [] else ["Account: " ++ bankAcc])
      ++ (if website = "" then [] else [website])
  if lines.isEmpty then ["—"] else lines

/-- The Bill To block lines: name by kind (placeholder when empty),
email, phone, and the composed address joining street, "city, postal"
and country, keeping only non-empty parts. -/
def buildBillLines (inv : InvoiceDetail) : List String :=
  let bill := inv.bill_to_snapshot.getD emptySnapshot
  let billName :=
    if bill.type = "company" then bill.company_name else bill.full_name
  let cityPostal :=
    String.intercalate ", " (([bill.city, bill.postal]).filter (· ≠ ""))
  let billAddress :=
    String.intercalate " • "
      (([bill.street, cityPostal, bill.country]).filter (· ≠ ""))
  ([orS billName "—", bill.email, bill.phone, billAddress]).filter (· ≠ "")

/-- The jsPDF a4 page width in points. -/
def pageW : Rat := 59528 / 100

/-- The outer margin M of the PDF routines. -/
def marginM : Rat := 40

/-- The document built by handleDownloadPDF once an invoice is in hand.
Only the logo flag depends on the logo fetch result; everything else is
drawn from the invoice, the profile and the branding. -/
def buildPdfDoc (invoiceId : String) (inv : InvoiceDetail)
    (prof : Option Profile) (branding : Branding)
    (logoRes : Option LogoImg) : PdfDoc :=
  let fromSnap := inv.from_snapshot.getD emptySnapshot
  let acctType := orS (profS prof Profile.accountType) "individual"
  let fallbackName :=
    if fromSnap.type = "company" then fromSnap.company_name
    else
      orS fromSnap.full_name
        (if acctType = "company" then profS prof Profile.companyName
         else profS prof Profile.fullName)
  let totals := computeTotals inv
  { brandColor := orS branding.brandColor "#0F172A"
    logoDrawn :=
      match logoRes with
      | some img => decide (img.dataUrl ≠ "")
      | none => false
    headerName := orS branding.companyName (orS fallbackName "Your Company")
    headerEmail :=
      orS fromSnap.email (orS (profS prof Profile.email) branding.email)
    invoiceNumber := inv.number
    widths := negotiateWidths (pageW - 2 * marginM)
    fromLines := buildFromLines inv prof branding
    billLines := buildBillLines inv
    issueDate := inv.issue_date
    dueDate := inv.due_date
    statusShown := inv.status
    itemRows :=
      inv.items.map fun it =>
        { item := it.item
          description := it.description.getD ""
          quantity := it.quantity
          unit_price := it.unit_price
          tax_percent := it.tax_percent
          lineTotal :=
            it.quantity * it.unit_price
              + it.quantity * it.unit_price * (it.tax_percent / 100) }
    totals := totals
    cardH := cardHeightBasic inv
    notesSection :=
      let n := inv.notes.getD ""
      if n = "" then none else some n
    termsSection :=
      let t := inv.terms.getD ""
      if t = "" then none else some t
    filename := "Invoice-" ++ orS inv.number invoiceId ++ ".pdf" }

/-- handleDownloadPDF on its fetched inputs: throws "Invoice not found."
before any drawing when the invoice does not resolve, otherwise builds
the full document; missing profile, branding or logo never fail. -/
def renderDownload (invoiceId : String) (invOpt : Option InvoiceDetail)
    (prof : Option Profile) (brandingOpt : Option Branding)
    (logoRes : Option LogoImg) : Except RenderError PdfDoc :=
  match invOpt with
  | none => .error .notFound
  | some inv =>
      .ok (buildPdfDoc invoiceId inv prof (brandingOpt.getD emptyBranding)
        logoRes)

/-! ### Payment update and mark-as-paid -/

/-- The payload handleUpdatePayment passes to updateInvoicePayment. -/
structure PaymentUpdate where
  payment_method : Option String
  amount_paid : Rat
  amount_due : Rat
  status : InvoiceStatus
deriving DecidableEq, Repr

/-- The validation and payload computation of handleUpdatePayment:
reject a negative amount or an amount above the invoice total before
any write; otherwise set amount_due = max(0, total - amountPaid) and
status = paid exactly when the full amount is paid. -/
def handleUpdatePayment (inv : InvoiceDetail) (paymentMethod : Option String)
    (amountPaid : Rat) : Option PaymentUpdate :=
  let total := (computeTotals inv).total
  if amountPaid < 0 then none
  else if total < amountPaid then none
  else
    some
      { payment_method := paymentMethod
        amount_paid := amountPaid
        amount_due := max 0 (total - amountPaid)
        status := if total ≤ amountPaid then .paid else .unpaid }

/-- Modelled from the spec: updateInvoicePayment is imported by the
detail-view actions but its body is not among the sources; per the
external interface persistPaymentStatus(id, status, payment fields) it
persists exactly the given payment fields and status on the stored
invoice row. -/
def updateInvoicePayment (stored : InvoiceDetail) (u : PaymentUpdate) :
    InvoiceDetail :=
  { stored with
      payment_method := u.payment_method
      amount_paid := u.amount_paid
      amount_due := u.amount_due
      status := u.status }

/-- The full Update Payment action: validate, then persist; a rejected
input performs no write and leaves the stored invoice unchanged. -/
def updatePaymentAction (stored : InvoiceDetail)
    (paymentMethod : Option String) (amountPaid : Rat) : InvoiceDetail :=
  match handleUpdatePayment stored paymentMethod amountPaid with
  | none => stored
  | some u => updateInvoicePayment stored u

/-- markInvoicePaid of lib/invoices-service.ts: sets status = "paid"
and touches nothing else. -/
def markInvoicePaid (stored : InvoiceDetail) : InvoiceDetail :=
  { stored with status := .paid }

/-! ### Helper lemmas and sample values -/

lemma foldl_add_map {α : Type} (f : α → Rat) (l : List α) (a : Rat) :
    l.foldl (fun s x => s + f x) a = a + (l.map f).sum := by
  induction l generalizing a with
  | nil => simp
  | cons x xs ih =>
      simp only [List.foldl_cons, List.map_cons, List.sum_cons, ih]
      ring

lemma computeSubtotal_eq (items : List InvoiceItemRow) :
    computeSubtotal items
      = (items.map fun it => it.quantity * it.unit_price).sum := by
  unfold computeSubtotal
  rw [foldl_add_map]
  ring

lemma computeTaxTotal_eq (items : List InvoiceItemRow) :
    computeTaxTotal items
      = (items.map fun it =>
          it.quantity * it.unit_price * (it.tax_percent / 100)).sum := by
  unfold computeTaxTotal
  rw [foldl_add_map]
  ring

lemma computeItemsTotal_split (items : List InvoiceItemRow) :
    computeItemsTotal items = computeSubtotal items + computeTaxTotal items := by
  have h : ∀ a b : Rat,
      items.foldl
        (fun sum it =>
          sum + it.quantity * it.unit_price
            + it.quantity * it.unit_price * (it.tax_percent / 100)) (a + b)
        = items.foldl (fun s it => s + it.quantity * it.unit_price) a
          + items.foldl
              (fun s it =>
                s + it.quantity * it.unit_price * (it.tax_percent / 100)) b := by
    induction items with
    | nil => intro a b; rfl
    | cons x xs ih =>
        intro a b
        simp only [List.foldl_cons]
        rw [← ih (a + x.quantity * x.unit_price)
          (b + x.quantity * x.unit_price * (x.tax_percent / 100))]
        congr 1
        ring
  have h0 := h 0 0
  simpa [computeItemsTotal, computeSubtotal, computeTaxTotal] using h0

/-- A sample line item: quantity 2, unit price 50, tax 10 percent. -/
def sampleItem : InvoiceItemRow := ⟨"Widget", none, 2, 50, 10⟩

/-- A sample invoice with one line item, no discount; its total is 110. -/
def sampleInvoice : InvoiceDetail :=
  { id := "inv-1"
    number := "INV-0001"
    issue_date := "2024-01-01"
    due_date := "2024-01-15"
    status := .unpaid
    currency := "MUR"
    from_snapshot := none
    bill_to_snapshot := none
    discount_type := .value
    discount_amount := 0
    notes := none
    terms := none
    items := [sampleItem]
    payment_method := none
    amount_paid := 0
    amount_due := 0 }

/-- An invoice with no items and an absolute discount of 10: its total
is -10. -/
def negativeInvoice : InvoiceDetail :=
  { sampleInvoice with
      items := []
      discount_type := .value
      discount_amount := 10 }

/-! ### Claims about the totals calculator -/

/-- C1: computeTotals returns exactly subtotal = sum of
quantity * unit_price, tax_total = sum of line * (tax_percent / 100),
discount_amount = subtotal * amount / 100 for a percent discount and
the amount verbatim for an absolute one, and
total = subtotal + tax_total - discount_amount, for every list of
items and every discount policy. -/
theorem c1_computeTotals_exact (inv : InvoiceDetail) :
    (computeTotals inv).subtotal
        = (inv.items.map fun it => it.quantity * it.unit_price).sum
    ∧ (computeTotals inv).taxTotal
        = (inv.items.map fun it =>
            it.quantity * it.unit_price * (it.tax_percent / 100)).sum
    ∧ (computeTotals inv).discount
        = (match inv.discount_type with
           | .percent => (computeTotals inv).subtotal * inv.discount_amount / 100
           | .value => inv.discount_amount)
    ∧ (computeTotals inv).total
        = (computeTotals inv).subtotal + (computeTotals inv).taxTotal
            - (computeTotals inv).discount := by
  refine ⟨computeSubtotal_eq inv.items, computeTaxTotal_eq inv.items, ?_, rfl⟩
  cases h : inv.discount_type <;> simp [computeTotals, h]

/-- C2 counterexample: the total is not always non-negative. An invoice
with no items and an absolute discount of 10 has total -10 < 0. -/
theorem c2_counterexample : (computeTotals negativeInvoice).total < 0 := by
  norm_num [computeTotals, computeSubtotal, computeTaxTotal, negativeInvoice,
    sampleInvoice]

/-- C2 amended: no clamping of the total to non-negative is performed
(the total is exactly subtotal + tax_total - discount_amount even when
that value is negative), and the total can legitimately go negative
when discount.amount is large. -/
theorem c2_no_clamping (inv : InvoiceDetail) :
    (computeTotals inv).total
        = (computeTotals inv).subtotal + (computeTotals inv).taxTotal
            - (computeTotals inv).discount
    ∧ ∃ inv2 : InvoiceDetail, (computeTotals inv2).total < 0 :=
  ⟨rfl, negativeInvoice, by
    norm_num [computeTotals, computeSubtotal, computeTaxTotal, negativeInvoice,
      sampleInvoice]⟩

/-- C5: a percent-of-subtotal discount of p is equivalent to an
absolute discount of S * p / 100, where S is the subtotal of the
items, for both the discount_amount and the total fields. -/
theorem c5_percent_absolute_equiv (inv : InvoiceDetail) (p : Rat) :
    (computeTotals
        { inv with discount_type := .percent, discount_amount := p }).discount
      = (computeTotals
          { inv with
              discount_type := .value
              discount_amount := computeSubtotal inv.items * p / 100 }).discount
    ∧ (computeTotals
        { inv with discount_type := .percent, discount_amount := p }).total
      = (computeTotals
          { inv with
              discount_type := .value
              discount_amount := computeSubtotal inv.items * p / 100 }).total := by
  constructor <;> rfl

/-- C6: on an empty items list, subtotal = 0 and tax_total = 0 for
every discount policy; discount_amount is 0 for a percent discount and
the given amount for an absolute one; and total = -discount_amount. -/
theorem c6_empty_items (inv : InvoiceDetail) :
    (computeTotals { inv with items := [] }).subtotal = 0
    ∧ (computeTotals { inv with items := [] }).taxTotal = 0
    ∧ (computeTotals { inv with items := [] }).discount
        = (match inv.discount_type with
           | .percent => 0
           | .value => inv.discount_amount)
    ∧ (computeTotals { inv with items := [] }).total
        = -(computeTotals { inv with items := [] }).discount := by
  cases h : inv.discount_type <;>
    simp [computeTotals, computeSubtotal, computeTaxTotal, h]

/-- C9: the list-view total computed by computeItemsTotal equals
subtotal + tax_total of computeTotals on the same items (it never
subtracts the discount), so it differs from the detail-view total
exactly when the effective discount is nonzero. -/
theorem c9_list_total (inv : InvoiceDetail) :
    computeItemsTotal inv.items
        = (computeTotals inv).subtotal + (computeTotals inv).taxTotal
    ∧ (computeItemsTotal inv.items ≠ (computeTotals inv).total
        ↔ (computeTotals inv).discount ≠ 0) := by
  have hsplit : computeItemsTotal inv.items
      = (computeTotals inv).subtotal + (computeTotals inv).taxTotal :=
    computeItemsTotal_split inv.items
  refine ⟨hsplit, ?_⟩
  have htot : (computeTotals inv).total
      = (computeTotals inv).subtotal + (computeTotals inv).taxTotal
          - (computeTotals inv).discount := rfl
  rw [hsplit, htot]
  constructor
  · intro hne hd
    exact hne (by rw [hd, sub_zero])
  · intro hd heq
    exact hd (by linarith)

/-! ### Claims about the PDF layout -/

lemma negotiateWidths_forced (a : Rat) (h : a < 508) :
    negotiateWidths a = ⟨140, 160, max 120 (a - 348)⟩ := by
  simp only [negotiateWidths]
  have h1 : a - 180 - 200 - 2 * 24 < 160 := by linarith
  rw [if_pos h1]
  have e1 : min (160 - (a - 180 - 200 - 2 * 24)) (max 0 (200 - 160))
      = (40 : Rat) := by
    rw [max_eq_right (by norm_num : (0:Rat) ≤ 200 - 160)]
    rw [min_eq_right (by linarith)]
    norm_num
  rw [e1]
  have h2 : a - 180 - (200 - 40) - 2 * 24 < 160 := by linarith
  rw [if_pos h2]
  have e2 : min (160 - (a - 180 - (200 - 40) - 2 * 24))
      (max 0 ((180:Rat) - 140)) = (40 : Rat) := by
    rw [max_eq_right (by norm_num : (0:Rat) ≤ 180 - 140)]
    rw [min_eq_right (by linarith)]
    norm_num
  rw [e2]
  have h3 : a - (180 - 40) - (200 - 40) - 2 * 24 < 160 := by linarith
  rw [if_pos h3]
  congr 1 <;> norm_num
  congr 1
  ring

/-- C3 counterexample: an available width of 400 (page width 480 with
the two margins of 40) forces all three shrink steps, yet the three
resolved widths plus the two gutters sum to 468, not to the available
width. -/
theorem c3_counterexample :
    forcesAllThreeSteps (400 : Rat)
    ∧ (negotiateWidths 400).fromW + (negotiateWidths 400).detailsW
        + (negotiateWidths 400).midW + 2 * 24 ≠ 400 := by
  constructor
  · norm_num [forcesAllThreeSteps]
  · rw [negotiateWidths_forced 400 (by norm_num)]
    rw [show max (120:Rat) (400 - 348) = 120 from
      max_eq_left (by norm_num)]
    norm_num

/-- C3 amended: whenever all three shrink steps are forced, From ends
at its floor 140, Invoice Details at its floor 160, the middle column
never ends below its absolute minimum 120, and the three widths plus
the two gutters sum to max 468 available: exactly the available width
whenever available is at least 468, and 468 (exceeding the available
width) when the absolute-minimum clamp raises the middle column. -/
theorem c3_width_negotiation (a : Rat) (h : forcesAllThreeSteps a) :
    (negotiateWidths a).fromW = 140
    ∧ (negotiateWidths a).detailsW = 160
    ∧ 140 ≤ (negotiateWidths a).fromW
    ∧ 160 ≤ (negotiateWidths a).detailsW
    ∧ 120 ≤ (negotiateWidths a).midW
    ∧ (negotiateWidths a).fromW + (negotiateWidths a).detailsW
        + (negotiateWidths a).midW + 2 * 24 = max 468 a := by
  have hlt : a < 508 := h
  rw [negotiateWidths_forced a hlt]
  refine ⟨rfl, rfl, le_refl _, le_refl _, le_max_left _ _, ?_⟩
  have hmax : (348 : Rat) + max 120 (a - 348)
      = max (348 + 120) (348 + (a - 348)) := by
    rw [max_add_add_left]
  have ha : (348 : Rat) + (a - 348) = a := by ring
  have h468 : (348 : Rat) + 120 = 468 := by norm_num
  calc (140 : Rat) + 160 + max 120 (a - 348) + 2 * 24
      = 348 + max 120 (a - 348) := by ring
    _ = max (348 + 120) (348 + (a - 348)) := hmax
    _ = max 468 a := by rw [ha, h468]

/-- C3 witness: available width 480 forces all three steps; the widths
resolve to 140, 160 and 132 and sum with the gutters to 480. -/
theorem c3_witness :
    forcesAllThreeSteps (480 : Rat)
    ∧ ((negotiateWidths 480).fromW = 140
        ∧ (negotiateWidths 480).detailsW = 160
        ∧ 140 ≤ (negotiateWidths 480).fromW
        ∧ 160 ≤ (negotiateWidths 480).detailsW
        ∧ 120 ≤ (negotiateWidths 480).midW
        ∧ (negotiateWidths 480).fromW + (negotiateWidths 480).detailsW
            + (negotiateWidths 480).midW + 2 * 24 = max 468 480) :=
  ⟨by norm_num [forcesAllThreeSteps],
    c3_width_negotiation 480 (by norm_num [forcesAllThreeSteps])⟩

/-- C4 counterexample: with a per-line increment that is fixed, making
both payment amounts positive would have to grow the card by twice the
growth of making one positive; in the code the growths are 18 and 32
points, so no fixed per-line increment explains both. -/
theorem c4_counterexample :
    cardHeight { sampleInvoice with amount_paid := 50, amount_due := 60 }
        - cardHeight sampleInvoice
      ≠ 2 * (cardHeight { sampleInvoice with amount_paid := 50 }
          - cardHeight sampleInvoice) := by
  norm_num [cardHeight, hasPayment, computeTotals, computeSubtotal,
    computeTaxTotal, sampleInvoice, sampleItem]

/-- C4 amended: starting from an invoice with no payment amounts, the
totals card grows by the fixed per-line increment 14 for each
conditional payment line that becomes present (amount_paid positive,
amount_due positive), plus a one-time extra spacing of 4 whenever the
payment section is present at all; the increments are driven by the
same conditions that decide which lines are drawn. -/
theorem c4_card_growth (inv : InvoiceDetail) (p d : Rat)
    (hp : inv.amount_paid = 0) (hd : inv.amount_due = 0) :
    cardHeight { inv with amount_paid := p, amount_due := d }
        - cardHeight inv
      = 14 * ((if paidLineDrawn { inv with amount_paid := p, amount_due := d }
              then 1 else 0)
          + (if dueLineDrawn { inv with amount_paid := p, amount_due := d }
              then 1 else 0))
        + (if hasPayment { inv with amount_paid := p, amount_due := d }
            then 4 else 0) := by
  have htot : computeTotals { inv with amount_paid := p, amount_due := d }
      = computeTotals inv := rfl
  simp only [cardHeight, hasPayment, paidLineDrawn, dueLineDrawn, htot, hp, hd]
  norm_num
  split_ifs <;> first | tauto | ring_nf

/-- C4 witness: making both payment amounts positive on the sample
invoice grows the card by 14 + 14 plus the extra spacing 4. -/
theorem c4_witness :
    sampleInvoice.amount_paid = 0 ∧ sampleInvoice.amount_due = 0
    ∧ cardHeight { sampleInvoice with amount_paid := 50, amount_due := 60 }
        - cardHeight sampleInvoice
      = 14 * ((if paidLineDrawn
                { sampleInvoice with amount_paid := 50, amount_due := 60 }
              then 1 else 0)
          + (if dueLineDrawn
                { sampleInvoice with amount_paid := 50, amount_due := 60 }
              then 1 else 0))
        + (if hasPayment
              { sampleInvoice with amount_paid := 50, amount_due := 60 }
            then 4 else 0) :=
  ⟨rfl, rfl, c4_card_growth sampleInvoice 50 60 rfl rfl⟩

/-! ### Claims about rendering failure behavior -/

/-- C7: the download render fails exactly when the invoice record does
not resolve, with the typed not-found error and no document produced;
with an invoice in hand every combination of missing profile, branding
or logo still renders successfully. -/
theorem c7_notfound_only_failure (invoiceId : String)
    (invOpt : Option InvoiceDetail) (prof : Option Profile)
    (brandingOpt : Option Branding) (logoRes : Option LogoImg) :
    (renderDownload invoiceId invOpt prof brandingOpt logoRes).isOk
        = invOpt.isSome
    ∧ renderDownload invoiceId none prof brandingOpt logoRes
        = .error .notFound := by
  constructor
  · cases invOpt <;> rfl
  · rfl

/-- C8: when the logo fetch or decode fails, the render still succeeds
and produces the complete document, which agrees field by field with
the document produced with any successfully fetched logo except that
no logo is drawn. -/
theorem c8_logo_failure_tolerated (invoiceId : String) (inv : InvoiceDetail)
    (prof : Option Profile) (brandingOpt : Option Branding) (l : LogoImg) :
    renderDownload invoiceId (some inv) prof brandingOpt none
        = .ok (buildPdfDoc invoiceId inv prof (brandingOpt.getD emptyBranding)
            none)
    ∧ buildPdfDoc invoiceId inv prof (brandingOpt.getD emptyBranding) none
        = { buildPdfDoc invoiceId inv prof (brandingOpt.getD emptyBranding)
              (some l) with
            logoDrawn := false } := by
  exact ⟨rfl, rfl⟩

/-! ### Claims about the payment actions -/

/-- C10: a successful Update Payment persists
amount_due = max(0, total - amount_paid) (hence non-negative) and
status = paid exactly when amount_paid covers the total, where the
total is computeTotals of the invoice (unchanged by the action); a
negative amount or an amount above the total is rejected before any
write; the separate Mark as Paid action sets the status alone. -/
theorem c10_update_payment (stored : InvoiceDetail) (pm : Option String)
    (ap : Rat) (h0 : 0 ≤ ap) (h1 : ap ≤ (computeTotals stored).total) :
    computeTotals (updatePaymentAction stored pm ap) = computeTotals stored
    ∧ (updatePaymentAction stored pm ap).amount_due
        = max 0 ((computeTotals stored).total
            - (updatePaymentAction stored pm ap).amount_paid)
    ∧ 0 ≤ (updatePaymentAction stored pm ap).amount_due
    ∧ ((updatePaymentAction stored pm ap).status = .paid
        ↔ (computeTotals stored).total
            ≤ (updatePaymentAction stored pm ap).amount_paid)
    ∧ (∀ bad : Rat, bad < 0 ∨ (computeTotals stored).total < bad →
        updatePaymentAction stored pm bad = stored)
    ∧ (markInvoicePaid stored).status = .paid
    ∧ (markInvoicePaid stored).amount_paid = stored.amount_paid
    ∧ (markInvoicePaid stored).amount_due = stored.amount_due := by
  have hact : updatePaymentAction stored pm ap
      = updateInvoicePayment stored
          { payment_method := pm
            amount_paid := ap
            amount_due := max 0 ((computeTotals stored).total - ap)
            status :=
              if (computeTotals stored).total ≤ ap then .paid
              else .unpaid } := by
    unfold updatePaymentAction handleUpdatePayment
    rw [if_neg (not_lt.mpr h0), if_neg (not_lt.mpr h1)]
  refine ⟨?_, ?_, ?_, ?_, ?_, rfl, rfl, rfl⟩
  · rw [hact]; rfl
  · rw [hact]; rfl
  · rw [hact]
    exact le_max_left _ _
  · rw [hact]
    show (if (computeTotals stored).total ≤ ap then InvoiceStatus.paid
        else InvoiceStatus.unpaid) = .paid
      ↔ (computeTotals stored).total ≤ ap
    split_ifs with hle
    · simpa using hle
    · simp [hle]
  · intro bad hbad
    unfold updatePaymentAction handleUpdatePayment
    by_cases hbneg : bad < 0
    · rw [if_pos hbneg]
    · rw [if_neg hbneg]
      rcases hbad with hb | hb
      · exact absurd hb hbneg
      · rw [if_pos hb]

/-- C10 witness: paying the full 110 of the sample invoice is accepted
and persists a non-negative amount due of zero and the paid status. -/
theorem c10_witness :
    (0 : Rat) ≤ 110 ∧ (110 : Rat) ≤ (computeTotals sampleInvoice).total
    ∧ 0 ≤ (updatePaymentAction sampleInvoice none 110).amount_due
    ∧ ((updatePaymentAction sampleInvoice none 110).status = .paid
        ↔ (computeTotals sampleInvoice).total
            ≤ (updatePaymentAction sampleInvoice none 110).amount_paid) := by
  have htot : (110 : Rat) ≤ (computeTotals sampleInvoice).total := by
    norm_num [computeTotals, computeSubtotal, computeTaxTotal, sampleInvoice,
      sampleItem]
  have h := c10_update_payment sampleInvoice none 110 (by norm_num) htot
  exact ⟨by norm_num, htot, h.2.2.1, h.2.2.2.1⟩

end Invoicing
